import Mathlib

/-!
Verification of the certificate-verification core of the edutrack backend.

The development shallowly embeds the Python modules
`achievements/certificate_verification/non_qr_verification/main.py`,
`.../non_qr_verification/checks/metadata_check.py` and the
unified-output section of `.../backend_interface.py` into Lean.
Python numbers are modelled as exact rationals, Python dicts as
association lists with string keys, and fallible Python code as
`Except String`.
-/

deriving instance DecidableEq for Except

namespace CertVerify

mutual

/-- Model of the Python values that flow through the verification
pipeline: `None`, booleans, ints, floats (as exact rationals),
strings, lists and string-keyed dicts. -/
inductive PyVal where
  | pyNone : PyVal
  | pyBool (b : Bool) : PyVal
  | pyInt (n : Int) : PyVal
  | pyFloat (q : ℚ) : PyVal
  | pyStr (s : String) : PyVal
  | pyList (vs : PyItems) : PyVal
  | pyDict (es : PyFields) : PyVal

/-- The elements of a Python list value. -/
inductive PyItems where
  | nil : PyItems
  | cons (v : PyVal) (rest : PyItems) : PyItems

/-- The entries of a Python dict value, in insertion order. -/
inductive PyFields where
  | nil : PyFields
  | cons (k : String) (v : PyVal) (rest : PyFields) : PyFields

end

/-- Build dict entries from a list of pairs. -/
def pyFieldsOf : List (String × PyVal) → PyFields
  | [] => .nil
  | (k, v) :: r => .cons k v (pyFieldsOf r)

/-- Convenience constructor for a dict value. -/
def mkDict (l : List (String × PyVal)) : PyVal :=
  .pyDict (pyFieldsOf l)

/-- Python dict lookup (`d.get(k)` / `k in d`): first entry with the key.
Dicts built by the embedded code have distinct keys. -/
def lookupVal : PyFields → String → Option PyVal
  | .nil, _ => none
  | .cons k v rest, key => if k == key then some v else lookupVal rest key

/-- Python `k in d`. -/
def hasKey (es : PyFields) (k : String) : Bool :=
  (lookupVal es k).isSome

/-- The list value is empty. -/
def PyItems.isEmpty : PyItems → Bool
  | .nil => true
  | .cons _ _ => false

/-- The dict value has no entries. -/
def PyFields.isEmpty : PyFields → Bool
  | .nil => true
  | .cons _ _ _ => false

/-- Python truthiness of a value. -/
def pyTruthy : PyVal → Bool
  | .pyNone => false
  | .pyBool b => b
  | .pyInt n => n != 0
  | .pyFloat q => q != 0
  | .pyStr s => s != ""
  | .pyList l => !l.isEmpty
  | .pyDict l => !l.isEmpty

/-- Python `str(v)`.  Floats, lists and dicts are rendered by Python as
their decimal/`repr` text; those renderings are never consumed by the
embedded logic or by any theorem input, so they are abbreviated here. -/
def pyStrOf : PyVal → String
  | .pyNone => "None"
  | .pyBool b => if b then "True" else "False"
  | .pyInt n => toString n
  | .pyFloat _ => "<float>"
  | .pyStr s => s
  | .pyList _ => "<list>"
  | .pyDict _ => "<dict>"

/-- Python `str(x or "")` applied to an optional dict entry: a missing
key gives `None`, and any falsy value is replaced by `""`. -/
def strOrEmpty (v : Option PyVal) : String :=
  match v with
  | none => ""
  | some x => if pyTruthy x then pyStrOf x else ""

/-- ASCII upper-casing, the effect of Python `str.upper()` on the
ASCII verdict keywords this pipeline compares. -/
def strUpper (s : String) : String :=
  String.mk (s.data.map Char.toUpper)

/-- ASCII lower-casing, the effect of Python `str.lower()` on the
producer and creator strings this pipeline compares. -/
def strLower (s : String) : String :=
  String.mk (s.data.map Char.toLower)

/-- The whitespace stripped by Python `str.strip()` (the form-feed and
vertical-tab cases are omitted; no value in this development uses
them). -/
def isSpaceChar (c : Char) : Bool :=
  c == ' ' || c == '\t' || c == '\n' || c == '\r'

/-- Python `str.strip()`. -/
def strTrim (s : String) : String :=
  String.mk ((((s.data.dropWhile isSpaceChar).reverse).dropWhile isSpaceChar).reverse)

/-- Digits of a decimal literal to a natural number. -/
def digitsToNat (cs : List Char) : Nat :=
  cs.foldl (fun a c => a * 10 + (c.toNat - 48)) 0

/-- Parse the decimal literals accepted by Python `float(str)`:
optional sign, digits, optional fractional part.  (Scientific
notation, underscores, `inf` and `nan` are not modelled; no value in
this development uses them.) -/
def parseNumeric (s : String) : Option ℚ :=
  let cs := s.data
  let signAndRest : ℚ × List Char :=
    match cs with
    | '-' :: r => (-1, r)
    | '+' :: r => (1, r)
    | r => (1, r)
  let sign := signAndRest.1
  let rest := signAndRest.2
  let intPart := rest.takeWhile (fun c => c ≠ '.')
  let tailPart := rest.drop intPart.length
  match tailPart with
  | [] =>
    if intPart.isEmpty || !(intPart.all Char.isDigit) then none
    else some (sign * (digitsToNat intPart : ℚ))
  | '.' :: frac =>
    if intPart.isEmpty && frac.isEmpty then none
    else if !(intPart.all Char.isDigit) || !(frac.all Char.isDigit) then none
    else some (sign * ((digitsToNat intPart : ℚ) +
      (digitsToNat frac : ℚ) / (10 ^ frac.length)))
  | _ => none

/-- Python `float(v)`: succeeds on bools, ints, floats and numeric
strings, raises `TypeError` / `ValueError` otherwise. -/
def pyFloatCast : PyVal → Except String ℚ
  | .pyBool b => .ok (if b then 1 else 0)
  | .pyInt n => .ok (n : ℚ)
  | .pyFloat q => .ok q
  | .pyStr s =>
    match parseNumeric (strTrim s) with
    | some q => .ok q
    | none => .error "ValueError"
  | _ => .error "TypeError"

/-- `float(v)` succeeds (v is a bool, an int, a float or a numeric string). -/
def floatConvertible (v : PyVal) : Bool :=
  (pyFloatCast v).isOk

/-- Python comparison of a value against a number (`v > 0.7`):
only bools, ints and floats are comparable, anything else raises
`TypeError`. -/
def pyAsNumber : PyVal → Except String ℚ
  | .pyBool b => .ok (if b then 1 else 0)
  | .pyInt n => .ok (n : ℚ)
  | .pyFloat q => .ok q
  | _ => .error "TypeError"

/-- The `for k in ("final_score", "finalScore", "finalscore")` loop of
`extract_numeric_score`: such a key counts only when present with an
`int`/`float`/`bool` value (Python `isinstance(_, (int, float))`
includes `bool`). -/
def numericAt (es : PyFields) (k : String) : Option ℚ :=
  match lookupVal es k with
  | some (.pyBool b) => some (if b then 1 else 0)
  | some (.pyInt n) => some (n : ℚ)
  | some (.pyFloat q) => some q
  | _ => none

/-- First numeric value among the `final_score` key variants. -/
def finalScoreKeyVal (es : PyFields) : Option ℚ :=
  (numericAt es "final_score").orElse (fun _ =>
    (numericAt es "finalScore").orElse (fun _ => numericAt es "finalscore"))

/-- `str(output.get("final_verdict") or output.get("verdict") or "")`. -/
def verdictChain (es : PyFields) : String :=
  match lookupVal es "final_verdict" with
  | some x => if pyTruthy x then pyStrOf x else strOrEmpty (lookupVal es "verdict")
  | none => strOrEmpty (lookupVal es "verdict")

/-- `str(output.get("verdict", "")).upper()` — note that an explicit
`None` stored under `verdict` becomes the string `NONE` here. -/
def verdictKeywordOf (es : PyFields) : String :=
  strUpper (pyStrOf ((lookupVal es "verdict").getD (.pyStr "")))

/-- The fixed verdict lexicon of `extract_numeric_score`
(`main.py` lines 81-88). -/
def lexiconScore (v : String) : Option ℚ :=
  if v == "EXACT_MATCH" || v == "ORIGINAL" || v == "LIKELY_ORIGINAL" then some 100
  else if v == "POSSIBLE_MATCH" || v == "LIKELY_SAME_TEMPLATE" || v == "POSSIBLE" then some 70
  else if v == "NO_MATCH" || v == "LIKELY_TAMPERED" || v == "FAKE" then some 0
  else if v == "NO_DB" || v == "UNKNOWN" || v == "" then some 50
  else none

/-- `v` is a dict. -/
def PyVal.isDict : PyVal → Bool
  | .pyDict _ => true
  | _ => false

/-- The deep-search loop of `extract_numeric_score` (lines 91-94):
the first dict among the values, if any. -/
def firstDictVal : PyFields → Option PyVal
  | .nil => none
  | .cons _ v rest => if v.isDict then some v else firstDictVal rest

mutual

/-- `extract_numeric_score` of `non_qr_verification/main.py` (lines
60-99): collapse an arbitrary check output into a `(score, verdict)`
pair.  The result is `Except` because Python `float(...)` raises on
non-numeric `score` and `confidence` values. -/
def extract_numeric_score : PyVal → Except String (ℚ × String)
  | .pyNone => .ok (50, "UNKNOWN")
  | .pyDict es =>
    if hasKey es "error" then .ok (0, "ERROR")
    else
      match finalScoreKeyVal es with
      | some q => .ok (q, verdictChain es)
      | none =>
        match lookupVal es "score" with
        | some sv =>
          (pyFloatCast sv).map (fun q => (q, strOrEmpty (lookupVal es "verdict")))
        | none =>
          match lookupVal es "confidence" with
          | some cv =>
            (pyFloatCast cv).map (fun c =>
              (if c ≤ 1 then c * 100 else c, strOrEmpty (lookupVal es "verdict")))
          | none =>
            match lexiconScore (verdictKeywordOf es) with
            | some q => .ok (q, verdictKeywordOf es)
            | none => deepSearch es
  | .pyBool b => .ok (if b then 1 else 0, "NUMERIC")
  | .pyInt n => .ok ((n : ℚ), "NUMERIC")
  | .pyFloat q => .ok (q, "NUMERIC")
  | .pyStr _ => .ok (50, "UNKNOWN")
  | .pyList _ => .ok (50, "UNKNOWN")

/-- The deep-search loop (lines 91-94): recurse into the first dict
value; if no value is a dict, fall through to the neutral result
(line 99). -/
def deepSearch : PyFields → Except String (ℚ × String)
  | .nil => .ok (50, "UNKNOWN")
  | .cons _ v rest =>
    if v.isDict then extract_numeric_score v else deepSearch rest

end

/-- The clamp applied by the orchestrator before weighting
(`main.py` line 203: `max(0, min(100, score))`). -/
def clamp100 (q : ℚ) : ℚ := max 0 (min 100 q)

/-! ## Totality of the normalizer on well-formed score fields -/

mutual

/-- Every `score` / `confidence` entry that the resolution of
`extract_numeric_score` can reach is `float()`-convertible.  The
recursion mirrors the deep search: only the first dict value of each
level is descended into. -/
def goodScores : PyVal → Bool
  | .pyDict es =>
    (match lookupVal es "score" with
     | some x => floatConvertible x
     | none => true) &&
    ((match lookupVal es "confidence" with
      | some x => floatConvertible x
      | none => true) &&
     goodScoresDeep es)
  | _ => true

/-- `goodScores` on the value the deep search would recurse into. -/
def goodScoresDeep : PyFields → Bool
  | .nil => true
  | .cons _ v rest =>
    if v.isDict then goodScores v else goodScoresDeep rest

end

/-! ## Weights and orchestrator (`non_qr_verification/main.py`) -/

/-- The registered check modules (`main.py` lines 15-28). -/
def CHECK_MODULES : List String :=
  ["color_check", "ela_check", "logo_check", "metadata_check",
   "name_check", "phash_check", "signature", "signature_check",
   "signature_image_check", "ssim_check", "text_check",
   "visual_fingerprint_check"]

/-- `TOTAL = 100.0` (line 30). -/
def TOTAL : ℚ := 100

/-- `META_WEIGHT = 50.0` (line 31). -/
def META_WEIGHT : ℚ := 50

/-- `OTHER_TOTAL = TOTAL - META_WEIGHT` (line 32). -/
def OTHER_TOTAL : ℚ := TOTAL - META_WEIGHT

/-- `NUM_OTHER = len(CHECK_MODULES) - 1` (line 33), stated for an
arbitrary module list so that the weight-map invariant can be proved
for any number of registered checks. -/
def NUM_OTHER (mods : List String) : ℕ := mods.length - 1

/-- `OTHER_WEIGHT_EACH` (line 34), idealized: the exact rational value
of `OTHER_TOTAL / NUM_OTHER`.  The source computes this expression in
IEEE doubles; `OTHER_WEIGHT_EACH_float` below models that rounding
bit-exactly, and the weight-sum claim is settled against the float
model.  The orchestrator arithmetic elsewhere abstracts doubles as
exact rationals. -/
def OTHER_WEIGHT_EACH (mods : List String) : ℚ :=
  if 0 < NUM_OTHER mods then OTHER_TOTAL / (NUM_OTHER mods : ℚ) else 0

/-- The weight map (line 36): the metadata check takes `META_WEIGHT`,
every other module takes `OTHER_WEIGHT_EACH` (idealized; see
`WEIGHTS_float` for the bit-exact double weights). -/
def WEIGHTS (mods : List String) (m : String) : ℚ :=
  if m = "metadata_check" then META_WEIGHT else OTHER_WEIGHT_EACH mods

/-- The ways one invocation of `run_check_module` (lines 103-180) can
go, abstracting the file system and the dynamic import: the module
file is missing, the import raised, the dispatched handler raised,
the handler returned a value, or no handler matched. -/
inductive ModuleOutcome where
  | fileNotFound (moduleFile : String)
  | loadFailed (msg : String)
  | handlerRaised (msg : String)
  | returned (v : PyVal)
  | noValidFunction

/-- `run_check_module`: every failure mode is converted into an
`error` dict; only a successful handler returns its own value.  The
function never raises. -/
def run_check_module : ModuleOutcome → PyVal
  | .fileNotFound mf => mkDict [("error", .pyStr ("module file not found: " ++ mf))]
  | .loadFailed e =>
    mkDict [("error", .pyStr ("import_failed: " ++ e)), ("trace", .pyStr "<traceback>")]
  | .handlerRaised e =>
    mkDict [("error", .pyStr ("handler crash: " ++ e)), ("trace", .pyStr "<traceback>")]
  | .returned v => v
  | .noValidFunction => mkDict [("error", .pyStr "No valid function")]

/-- The outcome is a raising handler or an `error` result — the
failure modes named by the isolation invariant. -/
def failsCheck : ModuleOutcome → Bool
  | .returned (.pyDict es) => hasKey es "error"
  | .returned _ => false
  | _ => true

/-- Python `round(q)`: round half to even. -/
def pyRoundInt (q : ℚ) : ℤ :=
  let f := ⌊q⌋
  let r := q - f
  if r < 1/2 then f
  else if 1/2 < r then f + 1
  else if f % 2 = 0 then f else f + 1

/-- Python `round(q, 2)`. -/
def round2 (q : ℚ) : ℚ := (pyRoundInt (q * 100) : ℚ) / 100

/-- Python `round(q, 3)`. -/
def round3 (q : ℚ) : ℚ := (pyRoundInt (q * 1000) : ℚ) / 1000

/-! ### Bit-exact IEEE binary64 model

The weight map of `main.py` is computed in Python floats.  The
following definitions model binary64 arithmetic exactly: a double is
the dyadic rational it denotes, and each operation rounds the exact
result to 53 significand bits, ties to even (`pyRoundInt` is
round-half-to-even).  Subnormals and overflow lie outside the range
of the weight arithmetic and are not modelled. -/

/-- Floor of the base-2 logarithm, fuel-bounded so that it is
structural (kernel-evaluable). -/
def log2n : ℕ → ℕ → ℕ
  | 0, _ => 0
  | f + 1, n => if 2 ≤ n then log2n f (n / 2) + 1 else 0

/-- `2^e` as a rational, for an integer exponent. -/
def intPow2 (e : ℤ) : ℚ :=
  if 0 ≤ e then ((2 ^ e.toNat : ℕ) : ℚ) else 1 / ((2 ^ (-e).toNat : ℕ) : ℚ)

/-- The binade of a positive rational: the `e` with
`2^e ≤ q < 2^(e+1)`. -/
def findExp (q : ℚ) : ℤ :=
  let e0 : ℤ := ((log2n 128 q.num.natAbs : ℕ) : ℤ) - ((log2n 128 q.den : ℕ) : ℤ)
  if intPow2 (e0 + 1) ≤ q then e0 + 1
  else if intPow2 e0 ≤ q then e0
  else e0 - 1

/-- Round a positive rational to the nearest binary64 value (53
significand bits, ties to even), as the exact dyadic rational that
double denotes. -/
def roundPosDouble (q : ℚ) : ℚ :=
  let e := findExp q
  ((pyRoundInt (q * intPow2 (52 - e)) : ℤ) : ℚ) * intPow2 (e - 52)

/-- Round to nearest binary64 (normal range). -/
def roundDouble (q : ℚ) : ℚ :=
  if q = 0 then 0
  else if 0 < q then roundPosDouble q
  else -(roundPosDouble (-q))

/-- IEEE binary64 division, as Python computes `a / b` on floats. -/
def fdiv64 (a b : ℚ) : ℚ := roundDouble (a / b)

/-- IEEE binary64 addition, as Python computes `a + b` on floats. -/
def fadd64 (a b : ℚ) : ℚ := roundDouble (a + b)

/-- Python `sum(...)` over floats: a left fold of rounded additions
starting from 0. -/
def sumFloat (l : List ℚ) : ℚ := l.foldl fadd64 0

/-- The double the source actually stores for `OTHER_WEIGHT_EACH`:
line 34 evaluates `OTHER_TOTAL / NUM_OTHER` (that is, `50.0 / 11` for
the registered modules) in IEEE doubles. -/
def OTHER_WEIGHT_EACH_float (mods : List String) : ℚ :=
  if 0 < NUM_OTHER mods then fdiv64 OTHER_TOTAL ((NUM_OTHER mods : ℕ) : ℚ) else 0

/-- The weight map of line 36 with IEEE-double semantics (the values
Python actually stores and sums). -/
def WEIGHTS_float (mods : List String) (m : String) : ℚ :=
  if m = "metadata_check" then META_WEIGHT else OTHER_WEIGHT_EACH_float mods

/-- One entry of the per-module results dict built by
`run_non_qr_checks` (lines 210-216). -/
structure ModuleRecord where
  raw : PyVal
  score : ℚ
  verdict : String
  weight : ℚ
  weighted_contribution : ℚ

/-- The per-module loop of `run_non_qr_checks` (lines 196-216):
normalize each raw result, clamp, weight, and accumulate the weighted
total.  An exception from `extract_numeric_score` propagates (the
call on line 202 is not guarded). -/
def processModules (wf : String → ℚ) (raw : String → PyVal) :
    List String → Except String (List (String × ModuleRecord) × ℚ)
  | [] => .ok ([], 0)
  | m :: rest =>
    match extract_numeric_score (raw m) with
    | .error e => .error e
    | .ok sv =>
      match processModules wf raw rest with
      | .error e => .error e
      | .ok (recs, wt) =>
        .ok ((m, { raw := raw m, score := clamp100 sv.1, verdict := sv.2,
                   weight := wf m,
                   weighted_contribution := round3 (clamp100 sv.1 / 100 * wf m) }) :: recs,
             clamp100 sv.1 / 100 * wf m + wt)

/-- The verdict bands of lines 221-226. -/
def classify (fs : ℚ) : String :=
  if fs ≥ 75 then "ORIGINAL"
  else if fs ≥ 45 then "SUSPICIOUS"
  else "FAKE"

/-- Checks scoring at least 85 (lines 237-238). -/
def strongSignals (recs : List (String × ModuleRecord)) : List String :=
  (recs.filter (fun r => r.2.score ≥ 85)).map (fun r => r.1)

/-- Checks scoring at most 30 or with a negative-keyword verdict
(lines 240-241). -/
def criticalIssues (recs : List (String × ModuleRecord)) : List String :=
  (recs.filter (fun r =>
    r.2.score ≤ 30 || r.2.verdict == "FAKE" || r.2.verdict == "TAMPERED" ||
    r.2.verdict == "NO_MATCH" || r.2.verdict == "LIKELY_TAMPERED")).map (fun r => r.1)

/-- Python `sep.join(l)`. -/
def joinWith (sep : String) : List String → String
  | [] => ""
  | [x] => x
  | x :: rest => x ++ sep ++ joinWith sep rest

/-- Lines 243-246: the sentences added for strong metadata/signature
signals. -/
def authenticityMarkers (recs : List (String × ModuleRecord)) : List String :=
  (if (strongSignals recs).contains "metadata_check"
   then ["Metadata strongly supports authenticity."] else []) ++
  (if (strongSignals recs).contains "signature_check"
   then ["Digital signature structure is valid."] else [])

/-- Lines 248-249: fall back to a default sentence when no strong
marker fired. -/
def baseReasons (recs : List (String × ModuleRecord)) : List String :=
  if (authenticityMarkers recs).isEmpty
  then ["No strong authenticity markers detected."]
  else authenticityMarkers recs

/-- Lines 251-254: the tampering sentence listing the critical
issues, or its absence note. -/
def tamperReasons (recs : List (String × ModuleRecord)) : List String :=
  if (criticalIssues recs).isEmpty
  then ["No strong tampering indicators found."]
  else ["Potential tampering found in: " ++ joinWith ", " (criticalIssues recs)]

/-- Lines 256-258: the corroborating note when at least five modules
were suspicious. -/
def suspNote (recs : List (String × ModuleRecord)) : List String :=
  if ((recs.filter (fun r =>
      r.2.verdict == "SUSPICIOUS" || r.2.verdict == "UNCERTAIN")).length) ≥ 5
  then ["Multiple modules reported suspicious behaviour."] else []

/-- The overall-reason synthesis of lines 229-260: the accumulated
sentences joined by spaces. -/
def overallReason (recs : List (String × ModuleRecord)) : String :=
  joinWith " " (baseReasons recs ++ tamperReasons recs ++ suspNote recs)

/-- The aggregate report built by `run_non_qr_checks`
(lines 263-270). -/
structure Report where
  certificate : String
  final_score : ℚ
  final_verdict : String
  overall_reason : String
  weights : List (String × ℚ)
  modules : List (String × ModuleRecord)

/-- `run_non_qr_checks` returns either the file-not-found error dict
(line 187) or the aggregate report. -/
inductive NonQrResult where
  | fileMissing (msg : String)
  | report (r : Report)

/-- `run_non_qr_checks` (lines 185-275), abstracted over whether the
certificate file exists and over the raw result each check module
produces for this document. -/
def run_non_qr_checks (fileExists : Bool) (cert_path : String)
    (raw : String → PyVal) : Except String NonQrResult :=
  if fileExists = false then
    .ok (.fileMissing ("File not found: " ++ cert_path))
  else
    match processModules (WEIGHTS CHECK_MODULES) raw CHECK_MODULES with
    | .error e => .error e
    | .ok (recs, wt) =>
      let total := (CHECK_MODULES.map (WEIGHTS CHECK_MODULES)).sum
      let fs := round2 (wt / total * 100)
      .ok (.report
        { certificate := cert_path
          final_score := fs
          final_verdict := classify fs
          overall_reason := overallReason recs
          weights := CHECK_MODULES.map (fun m => (m, WEIGHTS CHECK_MODULES m))
          modules := recs })

/-! ## Metadata forensics (`checks/metadata_check.py`) -/

/-- Substring search over character lists (Python `x in s` for
strings). -/
def charsContain (needle : List Char) : List Char → Bool
  | [] => needle.isEmpty
  | c :: rest => needle.isPrefixOf (c :: rest) || charsContain needle rest

/-- Python `needle in hay` for strings. -/
def strContains (hay needle : String) : Bool :=
  charsContain needle.data hay.data

/-- The blacklist of `score_metadata` (line 32). -/
def suspicious_tools : List String :=
  ["canva", "photoshop", "gimp", "word", "ppt", "illustrator"]

/-- A PDF metadata mapping: keys to optional strings, as produced by
`extract_metadata` (PyMuPDF yields strings or `None`). -/
def MetaDict := List (String × Option String)

/-- Lookup in a metadata mapping. -/
def metaGet (meta : MetaDict) (k : String) : Option (Option String) :=
  (meta.find? (fun kv => kv.1 == k)).map (fun kv => kv.2)

/-- `(meta.get(k) or "").lower()` — a missing key or a `None` / empty
value becomes the empty string. -/
def metaField (meta : MetaDict) (k : String) : String :=
  strLower (((metaGet meta k).getD none).getD "")

/-- Render a metadata mapping as the `metadata_raw` dict entry. -/
def metaToPy (meta : MetaDict) : PyVal :=
  .pyDict (pyFieldsOf (meta.map (fun kv =>
    (kv.1, match kv.2 with
           | some s => PyVal.pyStr s
           | none => PyVal.pyNone))))

/-- The producer string contains one of the suspicious tools
(line 34). -/
def producerSuspicious (producer : String) : Bool :=
  suspicious_tools.any (fun t => strContains producer t)

/-- `score_metadata` (`metadata_check.py` lines 23-60): 0 for a
suspicious or missing producer, 100 otherwise. -/
def score_metadata (meta : MetaDict) : PyVal :=
  let producer := metaField meta "producer"
  let creator := metaField meta "creator"
  if producerSuspicious producer then
    mkDict [("score", .pyInt 0), ("producer", .pyStr producer),
            ("creator", .pyStr creator), ("metadata_raw", metaToPy meta),
            ("reasons", .pyList (.cons
              (.pyStr ("Suspicious editing software detected: " ++ producer)) .nil))]
  else if strTrim producer == "" then
    mkDict [("score", .pyInt 0), ("producer", .pyStr producer),
            ("creator", .pyStr creator), ("metadata_raw", metaToPy meta),
            ("reasons", .pyList (.cons
              (.pyStr "Producer metadata missing (often in edited files).") .nil))]
  else
    mkDict [("score", .pyInt 100), ("producer", .pyStr producer),
            ("creator", .pyStr creator), ("metadata_raw", metaToPy meta),
            ("reasons", .pyList (.cons
              (.pyStr "Metadata clean. No editing indicators.") .nil))]

/-- The score of `score_metadata` as read back by
`run_metadata_check` (`scored["score"]`). -/
def scoredScore (meta : MetaDict) : ℚ :=
  if producerSuspicious (metaField meta "producer") then 0
  else if strTrim (metaField meta "producer") == "" then 0
  else 100

/-- `run_metadata_check` (lines 63-80) on a readable file with
metadata `meta`: verdict `GENUINE` exactly for score 100, else
`FAKE`. -/
def run_metadata_check (meta : MetaDict) : PyVal :=
  mkDict [("verdict", .pyStr (if scoredScore meta = 100 then "GENUINE" else "FAKE")),
          ("final_score", .pyFloat (scoredScore meta)),
          ("metadata_check", score_metadata meta)]

/-! ## Unified output (`backend_interface.py` lines 463-506) -/

/-- The three rejection-reason messages of lines 483-489, by the
threshold(s) that failed; the payloads are the values interpolated
into the corresponding f-strings. -/
inductive RejectionReason where
  | bothFailed (qrScore nonQrScore : ℚ)
  | qrFailed (qrScore : ℚ) (details : String)
  | nonQrFailed (nonQrScore : ℚ) (details : String)
deriving DecidableEq

/-- The `status` / `rejection_reason` pair of the unified output. -/
structure UnifiedStatus where
  status : String
  rejection : Option RejectionReason
deriving DecidableEq

/-- `d.get(k, default)` rendered into an f-string (`str`). -/
def pyGetStr (es : PyFields) (k : String) (dflt : String) : String :=
  match lookupVal es k with
  | some v => pyStrOf v
  | none => dflt

/-- Lines 463-471: `qr_score` is 0 when the QR result is `None`, not a
dict, or an error dict; otherwise `qr_result.get("score", 0)`. -/
def qrScoreVal (qrRes : Option PyVal) : PyVal :=
  match qrRes with
  | some (.pyDict es) =>
    if hasKey es "error" then .pyInt 0
    else (lookupVal es "score").getD (.pyInt 0)
  | _ => .pyInt 0

/-- Line 475: `non_qr_result.get("final_score", 0)` when the result is
a dict, else 0. -/
def nonQrScoreVal (nonQrRes : Option PyVal) : PyVal :=
  match nonQrRes with
  | some (.pyDict es) => (lookupVal es "final_score").getD (.pyInt 0)
  | _ => .pyInt 0

/-- Lines 479-489 once both scores are numbers: the status formula and
the rejection-reason branch chain.  The `qrFailed` branch evaluates
`qr_result.get("reason", ...)` on the raw `qr_result` variable, which
raises `AttributeError` when that variable is `None` (the no-URL
path); the `nonQrFailed` branch reads `non_qr_result` likewise. -/
def decideUnified (qrRes nonQrRes : Option PyVal) (qs ns : ℚ) :
    Except String UnifiedStatus :=
  let status := if qs > 7/10 ∧ ns > 70 then "verified" else "rejected"
  if status = "rejected" then
    if qs ≤ 7/10 ∧ ns ≤ 70 then
      .ok ⟨status, some (.bothFailed qs ns)⟩
    else if qs ≤ 7/10 then
      match qrRes with
      | some (.pyDict es) =>
        .ok ⟨status, some (.qrFailed qs (pyGetStr es "reason" "No details available."))⟩
      | _ => .error "AttributeError"
    else if ns ≤ 70 then
      match nonQrRes with
      | some (.pyDict es) =>
        .ok ⟨status, some (.nonQrFailed ns (pyGetStr es "overall_reason" "No details available."))⟩
      | _ => .error "AttributeError"
    else .ok ⟨status, none⟩
  else .ok ⟨status, none⟩

/-- The final-status and rejection-reason computation of
`verify_certificate` (lines 463-489).  `qrRes` is the value of
`results["qr_verification_result"]` (`none` models Python `None`, as
left by the no-URL path), `nonQrRes` the value of
`results["non_qr_verification_result"]`.  Comparing a non-numeric
score against a threshold raises `TypeError`, modelled by the eager
casts. -/
def unified_status (qrRes nonQrRes : Option PyVal) : Except String UnifiedStatus :=
  match pyAsNumber (qrScoreVal qrRes), pyAsNumber (nonQrScoreVal nonQrRes) with
  | .ok qs, .ok ns => decideUnified qrRes nonQrRes qs ns
  | .error e, _ => .error e
  | .ok _, .error e => .error e

/-- Render one per-module record as its Python dict
(lines 210-216). -/
def record_to_py (rec : ModuleRecord) : PyVal :=
  mkDict [("raw", rec.raw), ("score", .pyFloat rec.score),
          ("verdict", .pyStr rec.verdict), ("weight", .pyFloat rec.weight),
          ("weighted_contribution", .pyFloat rec.weighted_contribution)]

/-- Render the aggregate report as the Python dict returned by
`run_non_qr_checks` (lines 263-270) — the value stored into
`results["non_qr_verification_result"]`. -/
def report_to_py (r : Report) : PyVal :=
  mkDict [("certificate", .pyStr r.certificate),
          ("final_score", .pyFloat r.final_score),
          ("final_verdict", .pyStr r.final_verdict),
          ("overall_reason", .pyStr r.overall_reason),
          ("weights", .pyDict (pyFieldsOf (r.weights.map (fun p => (p.1, PyVal.pyFloat p.2))))),
          ("modules", .pyDict (pyFieldsOf (r.modules.map (fun p => (p.1, record_to_py p.2)))))]

/-! ## Result accessors (used to state concrete evaluations) -/

/-- The report of a successful orchestrator run. -/
def runReport : Except String NonQrResult → Option Report
  | .ok (.report r) => some r
  | _ => none

/-- Final score of a successful orchestrator run. -/
def finalScoreOfRun (e : Except String NonQrResult) : Option ℚ :=
  (runReport e).map (fun r => r.final_score)

/-- Final verdict of a successful orchestrator run. -/
def finalVerdictOfRun (e : Except String NonQrResult) : Option String :=
  (runReport e).map (fun r => r.final_verdict)

/-- The propagated exception of a failed orchestrator run. -/
def errOfRun : Except String NonQrResult → Option String
  | .error e => some e
  | _ => none

/-- The status of a successful unified-output computation. -/
def statusOf : Except String UnifiedStatus → Option String
  | .ok u => some u.status
  | _ => none

/-- The rejection reason of a successful unified-output
computation. -/
def rejectionOf : Except String UnifiedStatus → Option (Option RejectionReason)
  | .ok u => some u.rejection
  | _ => none

/-- The propagated exception of a failed unified-output
computation. -/
def errOfUnified : Except String UnifiedStatus → Option String
  | .error e => some e
  | _ => none

/-! ## Spec-side resolver for claim C4

Modelled from the spec: the Score Normalizer resolution order of
§4.1 as the claim reads it, with step 6 recursing exactly one level
into the first nested mapping.  This definition follows the words of
the spec, for comparison with `extract_numeric_score`. -/

/-- Steps 1-5 of the spec resolution order with no recursion at all:
the innermost level of the claimed one-level recursion. -/
def spec_resolve_leaf (v : PyVal) : ℚ × String :=
  match v with
  | .pyDict es =>
    if hasKey es "error" then (0, "ERROR")
    else
      match finalScoreKeyVal es with
      | some q => (q, verdictChain es)
      | none =>
        match lookupVal es "score" with
        | some sv =>
          (match pyFloatCast sv with
           | .ok q => (q, strOrEmpty (lookupVal es "verdict"))
           | .error _ => (50, "UNKNOWN"))
        | none =>
          match lookupVal es "confidence" with
          | some cv =>
            (match pyFloatCast cv with
             | .ok c => (if c ≤ 1 then c * 100 else c, strOrEmpty (lookupVal es "verdict"))
             | .error _ => (50, "UNKNOWN"))
          | none =>
            match lexiconScore (verdictKeywordOf es) with
            | some q => (q, verdictKeywordOf es)
            | none => (50, "UNKNOWN")
  | _ => (50, "UNKNOWN")

/-- The record `processModules` builds for a module whose raw value
normalizes to `norm m`. -/
def mkRecord (wf : String → ℚ) (raw : String → PyVal) (norm : String → ℚ × String)
    (m : String) : ModuleRecord :=
  { raw := raw m, score := clamp100 (norm m).1, verdict := (norm m).2,
    weight := wf m,
    weighted_contribution := round3 (clamp100 (norm m).1 / 100 * wf m) }

/-- Lookup of a per-module record in the results list. -/
def lookupRecord (recs : List (String × ModuleRecord)) (m : String) : Option ModuleRecord :=
  (recs.find? (fun kv => kv.1 == m)).map (fun kv => kv.2)

/-- The weighted total accumulated by a successful processing run. -/
def procWT (raw : String → PyVal) : Option ℚ :=
  match processModules (WEIGHTS CHECK_MODULES) raw CHECK_MODULES with
  | .ok (_, wt) => some wt
  | .error _ => none

/-- Overall reason of a successful orchestrator run. -/
def overallReasonOfRun (e : Except String NonQrResult) : Option String :=
  (runReport e).map (fun r => r.overall_reason)

/-- The clamped score recorded for one module in a successful run. -/
def moduleScoreOfRun (e : Except String NonQrResult) (m : String) : Option ℚ :=
  (runReport e).bind (fun r => (lookupRecord r.modules m).map (fun rec => rec.score))

/-- The verdict recorded for one module in a successful run. -/
def moduleVerdictOfRun (e : Except String NonQrResult) (m : String) : Option String :=
  (runReport e).bind (fun r => (lookupRecord r.modules m).map (fun rec => rec.verdict))

/-- Modelled from the spec: the resolver claimed by C4 — steps 1-5 as
in the code, then recursion into the first nested mapping value of
exactly one level (the nested level itself cannot recurse
further). -/
def spec_resolver_one_level (v : PyVal) : ℚ × String :=
  match v with
  | .pyDict es =>
    if hasKey es "error" then (0, "ERROR")
    else
      match finalScoreKeyVal es with
      | some q => (q, verdictChain es)
      | none =>
        match lookupVal es "score" with
        | some sv =>
          (match pyFloatCast sv with
           | .ok q => (q, strOrEmpty (lookupVal es "verdict"))
           | .error _ => (50, "UNKNOWN"))
        | none =>
          match lookupVal es "confidence" with
          | some cv =>
            (match pyFloatCast cv with
             | .ok c => (if c ≤ 1 then c * 100 else c, strOrEmpty (lookupVal es "verdict"))
             | .error _ => (50, "UNKNOWN"))
          | none =>
            match lexiconScore (verdictKeywordOf es) with
            | some q => (q, verdictKeywordOf es)
            | none =>
              match firstDictVal es with
              | some d => spec_resolve_leaf d
              | none => (50, "UNKNOWN")
  | _ => (50, "UNKNOWN")

/-! ## Lemmas about the Score Normalizer -/

theorem extract_of_error_key (es : PyFields) (h : hasKey es "error" = true) :
    extract_numeric_score (.pyDict es) = .ok (0, "ERROR") := by
  simp [extract_numeric_score, h]

theorem deepSearch_eq_extract :
    ∀ (es : PyFields) (d : PyVal), firstDictVal es = some d →
      deepSearch es = extract_numeric_score d
  | .nil, d, h => by simp [firstDictVal] at h
  | .cons k v rest, d, h => by
    by_cases hd : v.isDict = true
    · simp only [firstDictVal, hd, if_true, Option.some.injEq] at h
      subst h
      simp [deepSearch, hd]
    · simp only [Bool.not_eq_true] at hd
      simp only [firstDictVal, hd, Bool.false_eq_true, if_false] at h
      simp [deepSearch, hd, deepSearch_eq_extract rest d h]

theorem deepSearch_of_no_dict :
    ∀ es : PyFields, firstDictVal es = none → deepSearch es = .ok (50, "UNKNOWN")
  | .nil, _ => rfl
  | .cons k v rest, h => by
    by_cases hd : v.isDict = true
    · simp [firstDictVal, hd] at h
    · simp only [Bool.not_eq_true] at hd
      simp only [firstDictVal, hd, Bool.false_eq_true, if_false] at h
      simp [deepSearch, hd, deepSearch_of_no_dict rest h]

theorem pyFloatCast_ok_of_convertible (v : PyVal) (h : floatConvertible v = true) :
    ∃ q, pyFloatCast v = .ok q := by
  unfold floatConvertible at h
  cases hc : pyFloatCast v with
  | ok q => exact ⟨q, rfl⟩
  | error e => rw [hc] at h; simp [Except.isOk, Except.toBool] at h

mutual

theorem extract_ok_of_goodScores :
    ∀ v : PyVal, goodScores v = true → (extract_numeric_score v).isOk = true
  | .pyNone, _ => rfl
  | .pyBool _, _ => rfl
  | .pyInt _, _ => rfl
  | .pyFloat _, _ => rfl
  | .pyStr _, _ => rfl
  | .pyList _, _ => rfl
  | .pyDict es, h => by
    simp only [goodScores, Bool.and_eq_true] at h
    obtain ⟨hA, hB, hC⟩ := h
    simp only [extract_numeric_score]
    by_cases he : hasKey es "error"
    · simp [he, Except.isOk, Except.toBool]
    · simp only [Bool.not_eq_true] at he
      simp only [he, Bool.false_eq_true, if_false]
      cases hf : finalScoreKeyVal es with
      | some q => simp [Except.isOk, Except.toBool]
      | none =>
        cases hs : lookupVal es "score" with
        | some sv =>
          rw [hs] at hA
          obtain ⟨q, hq⟩ := pyFloatCast_ok_of_convertible sv hA
          simp [hq, Except.map, Except.isOk, Except.toBool]
        | none =>
          cases hcf : lookupVal es "confidence" with
          | some cv =>
            rw [hcf] at hB
            obtain ⟨c, hc⟩ := pyFloatCast_ok_of_convertible cv hB
            simp [hc, Except.map, Except.isOk, Except.toBool]
          | none =>
            cases hlx : lexiconScore (verdictKeywordOf es) with
            | some q => simp [Except.isOk, Except.toBool]
            | none => simpa using deepSearch_ok_of_good es hC

theorem deepSearch_ok_of_good :
    ∀ es : PyFields, goodScoresDeep es = true → (deepSearch es).isOk = true
  | .nil, _ => rfl
  | .cons k v rest, h => by
    by_cases hd : v.isDict = true
    · simp only [goodScoresDeep, hd, if_true] at h
      simpa [deepSearch, hd] using extract_ok_of_goodScores v h
    · simp only [Bool.not_eq_true] at hd
      simp only [goodScoresDeep, hd, Bool.false_eq_true, if_false] at h
      simpa [deepSearch, hd] using deepSearch_ok_of_good rest h

end

/-! ## Claims C3 and C4 -/

/-- Claim C3 counterexample: the Score Normalizer does raise on
CheckResults with a non-numeric `score` entry — `{"score": None}`
raises `TypeError` and `{"score": "high"}` raises `ValueError`
(the unguarded `float(output["score"])` on line 73 of `main.py`), so
it is not exception-free on arbitrary dicts. -/
theorem claim_C3_counterexample :
    extract_numeric_score (mkDict [("score", PyVal.pyNone)]) = .error "TypeError" ∧
    extract_numeric_score (mkDict [("score", PyVal.pyStr "high")]) = .error "ValueError" := by
  constructor <;> with_unfolding_all decide

/-- Claim C3 (amended): for every CheckResult whose `score` and
`confidence` entries reachable by the resolution are
`float()`-convertible (`goodScores`), the Score Normalizer returns a
`(score, label)` pair without raising; whenever it returns, the
clamped score the orchestrator contributes to the report lies in
`[0, 100]`; and the resolver is a pure function of its input
(deterministic). -/
theorem claim_C3_amended : ∀ v : PyVal,
    (goodScores v = true → (extract_numeric_score v).isOk = true) ∧
    (∀ s l, extract_numeric_score v = .ok (s, l) →
      0 ≤ clamp100 s ∧ clamp100 s ≤ 100) ∧
    (∀ w : PyVal, v = w → extract_numeric_score v = extract_numeric_score w) := by
  intro v
  refine ⟨extract_ok_of_goodScores v, ?_, ?_⟩
  · intro s l _
    constructor
    · exact le_max_left 0 _
    · exact max_le (by norm_num) (min_le_left 100 s)
  · intro w hw
    rw [hw]

/-- Witness for C3 (amended) at `{"score": "85.5"}`. -/
theorem claim_C3_witness :
    goodScores (mkDict [("score", PyVal.pyStr "85.5")]) = true ∧
    (extract_numeric_score (mkDict [("score", PyVal.pyStr "85.5")])).isOk = true :=
  ⟨by with_unfolding_all decide,
   (claim_C3_amended (mkDict [("score", PyVal.pyStr "85.5")])).1
     (by with_unfolding_all decide)⟩

/-- Claim C4 counterexample: the code recurses through nested
mappings to arbitrary depth, not exactly one level.  On a dict whose
first nested mapping itself defers to a second-level nested mapping,
the code resolves the innermost `score` (30), while the resolver the
claim describes (one level of recursion only) returns the neutral
`(50, "UNKNOWN")`. -/
theorem claim_C4_counterexample :
    extract_numeric_score (mkDict [("verdict", PyVal.pyStr "WEIRDA"),
      ("nested", mkDict [("verdict", PyVal.pyStr "WEIRDB"),
        ("inner", mkDict [("score", PyVal.pyInt 30)])])]) = .ok (30, "") ∧
    spec_resolver_one_level (mkDict [("verdict", PyVal.pyStr "WEIRDA"),
      ("nested", mkDict [("verdict", PyVal.pyStr "WEIRDB"),
        ("inner", mkDict [("score", PyVal.pyInt 30)])])]) = (50, "UNKNOWN") ∧
    ((30 : ℚ), "") ≠ ((50 : ℚ), "UNKNOWN") := by
  refine ⟨?_, ?_, ?_⟩ <;> with_unfolding_all decide

/-- Claim C4 (amended): the Score Normalizer resolves a CheckResult
dict by first-match-wins order — `error` first, then a numeric
`final_score` key variant, then `score`, then `confidence` (scaled by
100 when at most 1), then the fixed verdict lexicon — and then
recurses into the first nested mapping value found, applying the same
resolution there again (so mappings nested to any depth are followed,
not exactly one level); with no nested mapping it returns the neutral
`(50, "UNKNOWN")`. -/
theorem claim_C4_amended :
    (∀ es, hasKey es "error" = true →
      extract_numeric_score (.pyDict es) = .ok (0, "ERROR")) ∧
    (∀ es q, hasKey es "error" = false → finalScoreKeyVal es = some q →
      extract_numeric_score (.pyDict es) = .ok (q, verdictChain es)) ∧
    (∀ es sv q, hasKey es "error" = false → finalScoreKeyVal es = none →
      lookupVal es "score" = some sv → pyFloatCast sv = .ok q →
      extract_numeric_score (.pyDict es) =
        .ok (q, strOrEmpty (lookupVal es "verdict"))) ∧
    (∀ es cv c, hasKey es "error" = false → finalScoreKeyVal es = none →
      lookupVal es "score" = none → lookupVal es "confidence" = some cv →
      pyFloatCast cv = .ok c →
      extract_numeric_score (.pyDict es) =
        .ok (if c ≤ 1 then c * 100 else c, strOrEmpty (lookupVal es "verdict"))) ∧
    (∀ es q, hasKey es "error" = false → finalScoreKeyVal es = none →
      lookupVal es "score" = none → lookupVal es "confidence" = none →
      lexiconScore (verdictKeywordOf es) = some q →
      extract_numeric_score (.pyDict es) = .ok (q, verdictKeywordOf es)) ∧
    (lexiconScore "EXACT_MATCH" = some 100 ∧ lexiconScore "ORIGINAL" = some 100 ∧
     lexiconScore "LIKELY_ORIGINAL" = some 100 ∧ lexiconScore "POSSIBLE_MATCH" = some 70 ∧
     lexiconScore "LIKELY_SAME_TEMPLATE" = some 70 ∧ lexiconScore "POSSIBLE" = some 70 ∧
     lexiconScore "NO_MATCH" = some 0 ∧ lexiconScore "LIKELY_TAMPERED" = some 0 ∧
     lexiconScore "FAKE" = some 0 ∧ lexiconScore "NO_DB" = some 50 ∧
     lexiconScore "UNKNOWN" = some 50 ∧ lexiconScore "" = some 50) ∧
    (∀ es d, hasKey es "error" = false → finalScoreKeyVal es = none →
      lookupVal es "score" = none → lookupVal es "confidence" = none →
      lexiconScore (verdictKeywordOf es) = none → firstDictVal es = some d →
      extract_numeric_score (.pyDict es) = extract_numeric_score d) ∧
    (∀ es, hasKey es "error" = false → finalScoreKeyVal es = none →
      lookupVal es "score" = none → lookupVal es "confidence" = none →
      lexiconScore (verdictKeywordOf es) = none → firstDictVal es = none →
      extract_numeric_score (.pyDict es) = .ok (50, "UNKNOWN")) := by
  refine ⟨?_, ?_, ?_, ?_, ?_, ?_, ?_, ?_⟩
  · intro es h
    exact extract_of_error_key es h
  · intro es q he hf
    simp [extract_numeric_score, he, hf]
  · intro es sv q he hf hs hq
    simp [extract_numeric_score, he, hf, hs, hq, Except.map]
  · intro es cv c he hf hs hcf hc
    simp [extract_numeric_score, he, hf, hs, hcf, hc, Except.map]
  · intro es q he hf hs hcf hlx
    simp [extract_numeric_score, he, hf, hs, hcf, hlx]
  · with_unfolding_all decide
  · intro es d he hf hs hcf hlx hd
    rw [show extract_numeric_score (.pyDict es) = deepSearch es by
      simp [extract_numeric_score, he, hf, hs, hcf, hlx]]
    exact deepSearch_eq_extract es d hd
  · intro es he hf hs hcf hlx hd
    rw [show extract_numeric_score (.pyDict es) = deepSearch es by
      simp [extract_numeric_score, he, hf, hs, hcf, hlx]]
    exact deepSearch_of_no_dict es hd

/-- Witness for C4 (amended): the `error` branch at the concrete dict
`{"error": "x"}`. -/
theorem claim_C4_witness :
    extract_numeric_score (.pyDict (pyFieldsOf [("error", PyVal.pyStr "x")])) =
      .ok (0, "ERROR") :=
  claim_C4_amended.1 (pyFieldsOf [("error", PyVal.pyStr "x")])
    (by with_unfolding_all decide)

/-! ## Lemmas about the orchestrator -/

theorem extract_run_check_fails :
    ∀ o : ModuleOutcome, failsCheck o = true →
      extract_numeric_score (run_check_module o) = .ok (0, "ERROR")
  | .fileNotFound mf, _ => by
    simp only [run_check_module, mkDict]
    exact extract_of_error_key _ (by simp [pyFieldsOf, hasKey, lookupVal])
  | .loadFailed e, _ => by
    simp only [run_check_module, mkDict]
    exact extract_of_error_key _ (by simp [pyFieldsOf, hasKey, lookupVal])
  | .handlerRaised e, _ => by
    simp only [run_check_module, mkDict]
    exact extract_of_error_key _ (by simp [pyFieldsOf, hasKey, lookupVal])
  | .noValidFunction, _ => by
    simp only [run_check_module, mkDict]
    exact extract_of_error_key _ (by simp [pyFieldsOf, hasKey, lookupVal])
  | .returned (.pyDict es), h => by
    simp only [run_check_module]
    exact extract_of_error_key es (by simpa [failsCheck] using h)
  | .returned .pyNone, h => by simp [failsCheck] at h
  | .returned (.pyBool _), h => by simp [failsCheck] at h
  | .returned (.pyInt _), h => by simp [failsCheck] at h
  | .returned (.pyFloat _), h => by simp [failsCheck] at h
  | .returned (.pyStr _), h => by simp [failsCheck] at h
  | .returned (.pyList _), h => by simp [failsCheck] at h

theorem processModules_spec (wf : String → ℚ) (raw : String → PyVal)
    (norm : String → ℚ × String) :
    ∀ mods : List String,
      (∀ m ∈ mods, extract_numeric_score (raw m) = .ok (norm m)) →
      processModules wf raw mods =
        .ok (mods.map (fun m => (m, mkRecord wf raw norm m)),
             (mods.map (fun m => clamp100 (norm m).1 / 100 * wf m)).sum)
  | [], _ => rfl
  | m :: rest, h => by
    have hm : extract_numeric_score (raw m) = .ok (norm m) :=
      h m (List.mem_cons_self m rest)
    have ih := processModules_spec wf raw norm rest
      (fun m' hm' => h m' (List.mem_cons_of_mem _ hm'))
    simp [processModules, hm, ih, mkRecord]

theorem lookupRecord_map (g : String → ModuleRecord) :
    ∀ (mods : List String) (m : String), m ∈ mods →
      lookupRecord (mods.map (fun m' => (m', g m'))) m = some (g m)
  | [], m, hm => absurd hm (List.not_mem_nil m)
  | b :: mods, m, hm => by
    by_cases hb : b = m
    · subst hb
      unfold lookupRecord
      rw [List.map_cons, List.find?_cons_of_pos _ (by simp)]
      rfl
    · have hm' : m ∈ mods := by
        rcases List.mem_cons.mp hm with h1 | h2
        · exact absurd h1.symm hb
        · exact h2
      have ih := lookupRecord_map g mods m hm'
      unfold lookupRecord at ih ⊢
      rw [List.map_cons, List.find?_cons_of_neg _ (by simp [hb])]
      exact ih

theorem keys_of_map_records (g : String → ModuleRecord) (mods : List String) :
    ((mods.map (fun m' => (m', g m'))).map (fun kv => kv.1)) = mods := by
  rw [List.map_map]
  exact List.map_id mods

/-! ## Claim C5 -/

theorem sum_map_ite_not_mem (a : String) (x y : ℚ) :
    ∀ l : List String, a ∉ l →
      ((l.map (fun m => if m = a then x else y)).sum) = l.length * y
  | [], _ => by simp
  | b :: l, h => by
    have hb : b ≠ a := by
      rintro rfl
      exact h (List.mem_cons_self b l)
    have ih := sum_map_ite_not_mem a x y l (fun hm => h (List.mem_cons_of_mem _ hm))
    simp only [List.map_cons, List.sum_cons, if_neg hb, ih, List.length_cons]
    push_cast
    ring

theorem sum_map_ite_mem (a : String) (x y : ℚ) :
    ∀ l : List String, l.Nodup → a ∈ l →
      ((l.map (fun m => if m = a then x else y)).sum) =
        x + ((l.length - 1 : ℕ) : ℚ) * y
  | [], _, hm => absurd hm (List.not_mem_nil a)
  | b :: l, hd, hm => by
    by_cases hb : b = a
    · subst hb
      have hnot : b ∉ l := (List.nodup_cons.mp hd).1
      simp only [List.map_cons, List.sum_cons,
        sum_map_ite_not_mem b x y l hnot, List.length_cons, Nat.add_sub_cancel]
      simp
    · have hm' : a ∈ l := by
        rcases List.mem_cons.mp hm with h1 | h2
        · exact absurd h1.symm hb
        · exact h2
      have hlen : 1 ≤ l.length := List.length_pos.mpr (List.ne_nil_of_mem hm')
      have ih := sum_map_ite_mem a x y l (List.nodup_cons.mp hd).2 hm'
      simp only [List.map_cons, List.sum_cons, if_neg hb, ih, List.length_cons,
        Nat.add_sub_cancel]
      rw [Nat.cast_sub hlen]
      push_cast
      ring

set_option maxRecDepth 16000 in
/-- Claim C5 counterexample: the weight values the program stores are
IEEE doubles, and the sum the program computes (`sum(WEIGHTS.values())`
over the 12 registered checks, modelled bit-exactly by `sumFloat` over
`WEIGHTS_float`) is `100 + 2^-46 = 100.00000000000001`, not exactly
100 — the claimed exact-sum invariant fails on the program.  The
per-check double `50.0 / 11` itself is `5117726849284655 * 2^-50`,
not the exact rational `50 / 11`. -/
theorem claim_C5_counterexample :
    sumFloat (CHECK_MODULES.map (WEIGHTS_float CHECK_MODULES)) =
      100 + 1 / 70368744177664 ∧
    sumFloat (CHECK_MODULES.map (WEIGHTS_float CHECK_MODULES)) ≠ 100 ∧
    OTHER_WEIGHT_EACH_float CHECK_MODULES = 5117726849284655 / 1125899906842624 ∧
    OTHER_WEIGHT_EACH_float CHECK_MODULES ≠ 50 / 11 := by
  have hs : (sumFloat (CHECK_MODULES.map (WEIGHTS_float CHECK_MODULES))).num =
        7036874417766401 ∧
      (sumFloat (CHECK_MODULES.map (WEIGHTS_float CHECK_MODULES))).den =
        70368744177664 := by
    with_unfolding_all decide
  have hw : (OTHER_WEIGHT_EACH_float CHECK_MODULES).num = 5117726849284655 ∧
      (OTHER_WEIGHT_EACH_float CHECK_MODULES).den = 1125899906842624 := by
    with_unfolding_all decide
  have hq : sumFloat (CHECK_MODULES.map (WEIGHTS_float CHECK_MODULES)) =
      ((7036874417766401 : ℤ) : ℚ) / ((70368744177664 : ℕ) : ℚ) := by
    rw [← Rat.num_div_den (sumFloat (CHECK_MODULES.map (WEIGHTS_float CHECK_MODULES))),
      hs.1, hs.2]
  have hq' : OTHER_WEIGHT_EACH_float CHECK_MODULES =
      ((5117726849284655 : ℤ) : ℚ) / ((1125899906842624 : ℕ) : ℚ) := by
    rw [← Rat.num_div_den (OTHER_WEIGHT_EACH_float CHECK_MODULES), hw.1, hw.2]
  refine ⟨?_, ?_, ?_, ?_⟩
  · rw [hq]; norm_num
  · rw [hq]; norm_num
  · rw [hq']; norm_num
  · rw [hq']; norm_num

/-- Claim C5 (amended): the weight map assigns the metadata check
exactly 50 — half the configured total, both doubles exact — and
splits the remainder equally among every other registered check
(every other check receives the same stored double).  In exact
rational arithmetic the idealized weights sum to exactly 100 for any
duplicate-free registry containing the metadata check; the
IEEE-double sum the program computes, however, is not exactly 100 in
general — for the 12 registered checks it is `100 + 2^-46` (see the
counterexample). -/
theorem claim_C5_weight_map (mods : List String) (hnd : mods.Nodup)
    (hmem : "metadata_check" ∈ mods) (hlen : 2 ≤ mods.length) :
    WEIGHTS_float mods "metadata_check" = 50 ∧
    META_WEIGHT = TOTAL / 2 ∧
    (∀ m m', m ≠ "metadata_check" → m' ≠ "metadata_check" →
      WEIGHTS_float mods m = WEIGHTS_float mods m') ∧
    (∀ m, m ≠ "metadata_check" →
      WEIGHTS mods m = OTHER_TOTAL / ((mods.length - 1 : ℕ) : ℚ)) ∧
    ((mods.map (WEIGHTS mods)).sum = 100) := by
  have hpos : 0 < NUM_OTHER mods := by
    unfold NUM_OTHER
    omega
  have hne : ((mods.length - 1 : ℕ) : ℚ) ≠ 0 :=
    Nat.cast_ne_zero.mpr (by omega)
  refine ⟨by simp [WEIGHTS_float, META_WEIGHT],
    by norm_num [META_WEIGHT, TOTAL], ?_, ?_, ?_⟩
  · intro m m' hm hm'
    simp [WEIGHTS_float, hm, hm']
  · intro m hm
    rw [WEIGHTS, if_neg hm, OTHER_WEIGHT_EACH, if_pos hpos]
    rfl
  · have hsum := sum_map_ite_mem "metadata_check" META_WEIGHT (OTHER_WEIGHT_EACH mods)
      mods hnd hmem
    have : (mods.map (WEIGHTS mods)).sum =
        META_WEIGHT + ((mods.length - 1 : ℕ) : ℚ) * OTHER_WEIGHT_EACH mods := by
      simpa [WEIGHTS] using hsum
    rw [this, OTHER_WEIGHT_EACH, if_pos hpos]
    rw [show ((NUM_OTHER mods : ℕ) : ℚ) = ((mods.length - 1 : ℕ) : ℚ) from rfl]
    rw [mul_comm, div_mul_cancel₀ _ hne]
    norm_num [META_WEIGHT, OTHER_TOTAL, TOTAL]

/-- Witness for C5 (amended) at the actual module list. -/
theorem claim_C5_witness :
    WEIGHTS_float CHECK_MODULES "metadata_check" = 50 ∧
    (CHECK_MODULES.map (WEIGHTS CHECK_MODULES)).sum = 100 := by
  have h := claim_C5_weight_map CHECK_MODULES (by decide) (by decide) (by decide)
  exact ⟨h.1, h.2.2.2.2⟩

/-! ## Claims C6, C7, C8 -/

theorem run_eq_of_processModules (raw : String → PyVal) (p : String)
    (recs : List (String × ModuleRecord)) (wt : ℚ)
    (hp : processModules (WEIGHTS CHECK_MODULES) raw CHECK_MODULES = .ok (recs, wt)) :
    run_non_qr_checks true p raw = .ok (.report
      { certificate := p
        final_score :=
          round2 (wt / ((CHECK_MODULES.map (WEIGHTS CHECK_MODULES)).sum) * 100)
        final_verdict :=
          classify (round2 (wt / ((CHECK_MODULES.map (WEIGHTS CHECK_MODULES)).sum) * 100))
        overall_reason := overallReason recs
        weights := CHECK_MODULES.map (fun m => (m, WEIGHTS CHECK_MODULES m))
        modules := recs }) := by
  simp [run_non_qr_checks, hp]

/-- Claim C6 counterexample: one raising module (`color_check`) plus a
second module whose returned value poisons the normalizer
(`text_check` returning `{"score": None}`) makes the whole
orchestrator raise `TypeError` — no aggregate report is produced, so
isolation of a failing check does not hold unconditionally. -/
theorem claim_C6_counterexample :
    failsCheck ((fun m => if m = "color_check" then ModuleOutcome.handlerRaised "boom"
      else if m = "text_check" then ModuleOutcome.returned (mkDict [("score", PyVal.pyNone)])
      else ModuleOutcome.returned (mkDict [("score", PyVal.pyInt 80)])) "color_check") = true ∧
    errOfRun (run_non_qr_checks true "certificate.pdf"
      (fun m => run_check_module
        (if m = "color_check" then ModuleOutcome.handlerRaised "boom"
         else if m = "text_check" then ModuleOutcome.returned (mkDict [("score", PyVal.pyNone)])
         else ModuleOutcome.returned (mkDict [("score", PyVal.pyInt 80)])))) =
      some "TypeError" := by
  constructor <;> with_unfolding_all decide

/-- Claim C6 (amended): for every document path and every module whose
invocation raises or returns an `error` result, provided every
registered module's raw result is accepted by the normalizer, the
orchestrator produces a complete aggregate report containing a record
for every registered check, and the failing check is recorded with
normalized score 0 and verdict `ERROR`. -/
theorem claim_C6_isolation (outcomes : String → ModuleOutcome)
    (norm : String → ℚ × String) (m p : String) (hm : m ∈ CHECK_MODULES)
    (hfail : failsCheck (outcomes m) = true)
    (hall : ∀ m' ∈ CHECK_MODULES,
      extract_numeric_score (run_check_module (outcomes m')) = .ok (norm m')) :
    ∃ r, run_non_qr_checks true p (fun m' => run_check_module (outcomes m')) =
        .ok (.report r) ∧
      (r.modules.map (fun kv => kv.1)) = CHECK_MODULES ∧
      (∃ rec, lookupRecord r.modules m = some rec ∧
        rec.score = 0 ∧ rec.verdict = "ERROR") := by
  have hp := processModules_spec (WEIGHTS CHECK_MODULES)
    (fun m' => run_check_module (outcomes m')) norm CHECK_MODULES hall
  have hrun := run_eq_of_processModules _ p _ _ hp
  refine ⟨_, hrun, ?_, ?_⟩
  · exact keys_of_map_records _ CHECK_MODULES
  · have hnm : norm m = (0, "ERROR") := by
      have h1 := hall m hm
      have h2 := extract_run_check_fails (outcomes m) hfail
      rw [h1] at h2
      injection h2
    refine ⟨mkRecord (WEIGHTS CHECK_MODULES)
      (fun m' => run_check_module (outcomes m')) norm m,
      lookupRecord_map _ CHECK_MODULES m hm, ?_, ?_⟩
    · show clamp100 (norm m).1 = 0
      rw [hnm]
      norm_num [clamp100]
    · show (norm m).2 = "ERROR"
      rw [hnm]

/-- Witness for C6 (amended): `color_check` raises, every other module
returns `{"score": 80}`; the failing module is recorded with score 0
and verdict `ERROR`. -/
theorem claim_C6_witness :
    moduleScoreOfRun (run_non_qr_checks true "certificate.pdf"
      (fun m' => run_check_module
        (if m' = "color_check" then ModuleOutcome.handlerRaised "boom"
         else ModuleOutcome.returned (mkDict [("score", PyVal.pyInt 80)]))))
      "color_check" = some 0 ∧
    moduleVerdictOfRun (run_non_qr_checks true "certificate.pdf"
      (fun m' => run_check_module
        (if m' = "color_check" then ModuleOutcome.handlerRaised "boom"
         else ModuleOutcome.returned (mkDict [("score", PyVal.pyInt 80)]))))
      "color_check" = some "ERROR" := by
  obtain ⟨r, hr, hkeys, rec, hrec, hsc, hvd⟩ :=
    claim_C6_isolation
      (fun m' => if m' = "color_check" then ModuleOutcome.handlerRaised "boom"
        else ModuleOutcome.returned (mkDict [("score", PyVal.pyInt 80)]))
      (fun m' => if m' = "color_check" then ((0 : ℚ), "ERROR") else ((80 : ℚ), ""))
      "color_check" "certificate.pdf"
      (by decide) (by with_unfolding_all decide)
      (by with_unfolding_all decide)
  constructor
  · simp [moduleScoreOfRun, runReport, hr, hrec, hsc]
  · simp [moduleVerdictOfRun, runReport, hr, hrec, hvd]

/-- Claim C7 counterexample: with `color_check` normalizing to 1 and
every other check to 0, the exact formula `100 × Σwc / Σw` gives
`1/22`, but the reported `final_score` is `round(1/22, 2) = 0.05 =
1/20` — the code rounds to two decimal places, so the claimed exact
equality fails. -/
theorem claim_C7_counterexample :
    procWT (fun m => mkDict [("score",
      if m = "color_check" then PyVal.pyInt 1 else PyVal.pyInt 0)]) = some (1/22) ∧
    finalScoreOfRun (run_non_qr_checks true "certificate.pdf"
      (fun m => mkDict [("score",
        if m = "color_check" then PyVal.pyInt 1 else PyVal.pyInt 0)])) = some (1/20) ∧
    100 * ((1 : ℚ)/22) / ((CHECK_MODULES.map (WEIGHTS CHECK_MODULES)).sum) = 1/22 ∧
    (1/20 : ℚ) ≠ 1/22 := by
  refine ⟨?_, ?_, ?_, ?_⟩ <;> with_unfolding_all decide

/-- Claim C7 (amended): `final_score` equals `100 × Σ
weighted_contribution / Σ weight` rounded to two decimal places
(Python `round(_, 2)`), and the verdict bands hold exactly as stated:
`ORIGINAL` iff the rounded score is at least 75, `SUSPICIOUS` iff it
is in `[45, 75)`, `FAKE` iff it is below 45, with 80 mapping to
`ORIGINAL`, 50 to `SUSPICIOUS`, 20 to `FAKE`, and the boundaries 75
and 45 mapping to `ORIGINAL` and `SUSPICIOUS` respectively. -/
theorem claim_C7_score_formula (raw : String → PyVal) (p : String) (wt : ℚ)
    (hp : procWT raw = some wt) :
    (∃ r, run_non_qr_checks true p raw = .ok (.report r) ∧
      r.final_score =
        round2 (100 * wt / ((CHECK_MODULES.map (WEIGHTS CHECK_MODULES)).sum)) ∧
      r.final_verdict = classify r.final_score) ∧
    (∀ q : ℚ, (classify q = "ORIGINAL" ↔ 75 ≤ q) ∧
      (classify q = "SUSPICIOUS" ↔ 45 ≤ q ∧ q < 75) ∧
      (classify q = "FAKE" ↔ q < 45)) ∧
    classify 80 = "ORIGINAL" ∧ classify 75 = "ORIGINAL" ∧
    classify 50 = "SUSPICIOUS" ∧ classify 45 = "SUSPICIOUS" ∧
    classify 20 = "FAKE" := by
  refine ⟨?_, ?_, ?_, ?_, ?_, ?_, ?_⟩
  · unfold procWT at hp
    cases hproc : processModules (WEIGHTS CHECK_MODULES) raw CHECK_MODULES with
    | error e =>
      rw [hproc] at hp
      exact absurd hp (by simp)
    | ok pr =>
      obtain ⟨recs, wt'⟩ := pr
      rw [hproc] at hp
      simp only [Option.some.injEq] at hp
      subst hp
      have hrun := run_eq_of_processModules raw p recs wt' hproc
      refine ⟨_, hrun, ?_, rfl⟩
      show round2 _ = round2 _
      exact congrArg round2 (by ring)
  · intro q
    refine ⟨?_, ?_, ?_⟩
    · unfold classify
      split_ifs with h1 h2
      · exact iff_of_true rfl h1
      · exact iff_of_false (by decide) h1
      · exact iff_of_false (by decide) h1
    · unfold classify
      split_ifs with h1 h2
      · exact iff_of_false (by decide) (by rintro ⟨-, hlt⟩; linarith)
      · exact iff_of_true rfl ⟨h2, not_le.mp h1⟩
      · exact iff_of_false (by decide) (by rintro ⟨h45, -⟩; exact h2 h45)
    · unfold classify
      split_ifs with h1 h2
      · exact iff_of_false (by decide) (by intro hlt; linarith)
      · exact iff_of_false (by decide) (by intro hlt; linarith)
      · exact iff_of_true rfl (not_le.mp h2)
  all_goals with_unfolding_all decide

/-- Witness for C7 (amended): every check normalizes to 0, the final
score is the rounded formula value (here exactly 0). -/
theorem claim_C7_witness :
    procWT (fun _ => mkDict [("score", PyVal.pyInt 0)]) = some 0 ∧
    finalScoreOfRun (run_non_qr_checks true "certificate.pdf"
      (fun _ => mkDict [("score", PyVal.pyInt 0)])) =
      some (round2 (100 * 0 / ((CHECK_MODULES.map (WEIGHTS CHECK_MODULES)).sum))) := by
  refine ⟨by with_unfolding_all decide, ?_⟩
  obtain ⟨r, hr, hfs, -⟩ :=
    (claim_C7_score_formula (fun _ => mkDict [("score", PyVal.pyInt 0)])
      "certificate.pdf" 0 (by with_unfolding_all decide)).1
  simp [finalScoreOfRun, runReport, hr, hfs]

/-- Claim C8: if every registered check returns a CheckResult that
normalizes to score 100, the aggregate report has `final_score`
exactly 100 and `final_verdict` `ORIGINAL`. -/
theorem claim_C8_round_trip (raw : String → PyVal) (vd : String → String) (p : String)
    (h : ∀ m ∈ CHECK_MODULES, extract_numeric_score (raw m) = .ok (100, vd m)) :
    ∃ r, run_non_qr_checks true p raw = .ok (.report r) ∧
      r.final_score = 100 ∧ r.final_verdict = "ORIGINAL" := by
  have hp := processModules_spec (WEIGHTS CHECK_MODULES) raw
    (fun m => ((100 : ℚ), vd m)) CHECK_MODULES h
  have hrun := run_eq_of_processModules raw p _ _ hp
  have hsum : ((CHECK_MODULES.map (fun m =>
      clamp100 ((fun m' => ((100 : ℚ), vd m')) m).1 / 100 *
        WEIGHTS CHECK_MODULES m)).sum) = 100 := by
    have hfn : (fun m => clamp100 ((fun m' => ((100 : ℚ), vd m')) m).1 / 100 *
        WEIGHTS CHECK_MODULES m) =
        (fun m => clamp100 (100 : ℚ) / 100 * WEIGHTS CHECK_MODULES m) := by
      funext m
      rfl
    rw [hfn]
    with_unfolding_all decide
  refine ⟨_, hrun, ?_, ?_⟩
  · show round2 _ = 100
    rw [hsum]
    with_unfolding_all decide
  · show classify (round2 _) = "ORIGINAL"
    rw [hsum]
    with_unfolding_all decide

/-- Witness for C8: every check returns `{"score": 100}`. -/
theorem claim_C8_witness :
    finalScoreOfRun (run_non_qr_checks true "certificate.pdf"
      (fun _ => mkDict [("score", PyVal.pyInt 100)])) = some 100 ∧
    finalVerdictOfRun (run_non_qr_checks true "certificate.pdf"
      (fun _ => mkDict [("score", PyVal.pyInt 100)])) = some "ORIGINAL" := by
  obtain ⟨r, hr, hfs, hfv⟩ := claim_C8_round_trip
    (fun _ => mkDict [("score", PyVal.pyInt 100)]) (fun _ => "") "certificate.pdf"
    (by with_unfolding_all decide)
  constructor
  · simp [finalScoreOfRun, runReport, hr, hfs]
  · simp [finalVerdictOfRun, runReport, hr, hfv]

/-! ## String containment lemmas (for the overall reason) -/

theorem charsContain_refl : ∀ l : List Char, charsContain l l = true
  | [] => rfl
  | c :: r => by
    have : (c :: r).isPrefixOf (c :: r) = true := by
      rw [ List.isPrefixOf_iff_prefix]
    simp [charsContain, this]

theorem charsContain_append_right (n b : List Char) :
    ∀ a : List Char, charsContain n b = true → charsContain n (a ++ b) = true
  | [], h => by simp only [List.nil_append]; exact h
  | c :: a, h => by
    have ih := charsContain_append_right n b a h
    simp [List.cons_append, charsContain, ih]

theorem charsContain_append_left (n : List Char) :
    ∀ (a b : List Char), charsContain n a = true → charsContain n (a ++ b) = true
  | [], b, h => by
    have hn : n = [] := by
      cases n with
      | nil => rfl
      | cons c r => simp [charsContain, List.isEmpty] at h
    subst hn
    cases b with
    | nil => rfl
    | cons c r => simp [charsContain, List.isPrefixOf]
  | c :: a, b, h => by
    simp only [charsContain, Bool.or_eq_true] at h
    rcases h with h1 | h2
    · have hp : n.isPrefixOf (c :: (a ++ b)) = true := by
        rw [ List.isPrefixOf_iff_prefix] at h1 ⊢
        refine h1.trans ?_
        have hpa := List.prefix_append (c :: a) b
        rw [List.cons_append] at hpa
        exact hpa
      simp [List.cons_append, charsContain, hp]
    · have ih := charsContain_append_left n a b h2
      simp [List.cons_append, charsContain, ih]

theorem strContains_refl (s : String) : strContains s s = true :=
  charsContain_refl s.data

theorem strContains_append_left (a b n : String) (h : strContains a n = true) :
    strContains (a ++ b) n = true := by
  unfold strContains at h ⊢
  rw [String.data_append]
  exact charsContain_append_left _ _ _ h

theorem strContains_append_right (a b n : String) (h : strContains b n = true) :
    strContains (a ++ b) n = true := by
  unfold strContains at h ⊢
  rw [String.data_append]
  exact charsContain_append_right _ _ _ h

theorem joinWith_contains (sep : String) :
    ∀ (l : List String) (x sub : String), x ∈ l → strContains x sub = true →
      strContains (joinWith sep l) sub = true
  | [], x, sub, hm, _ => absurd hm (List.not_mem_nil x)
  | [y], x, sub, hm, hc => by
    have hx : x = y := by simpa using hm
    subst hx
    simpa [joinWith] using hc
  | y :: z :: rest, x, sub, hm, hc => by
    rcases List.mem_cons.mp hm with h1 | hm'
    · subst h1
      show strContains (x ++ sep ++ joinWith sep (z :: rest)) sub = true
      exact strContains_append_left _ _ _ (strContains_append_left _ _ _ hc)
    · show strContains (y ++ sep ++ joinWith sep (z :: rest)) sub = true
      exact strContains_append_right _ _ _
        (joinWith_contains sep (z :: rest) x sub hm' hc)

theorem overallReason_contains_critical (recs : List (String × ModuleRecord))
    (m : String) (hm : m ∈ criticalIssues recs) :
    strContains (overallReason recs) m = true := by
  have hne : (criticalIssues recs).isEmpty = false := by
    cases hcr : criticalIssues recs with
    | nil => rw [hcr] at hm; exact absurd hm (List.not_mem_nil m)
    | cons a l => rfl
  unfold overallReason
  apply joinWith_contains " " _
    ("Potential tampering found in: " ++ joinWith ", " (criticalIssues recs)) m
  · apply List.mem_append_left
    apply List.mem_append_right
    simp [tamperReasons, hne]
  · exact strContains_append_right _ _ _
      (joinWith_contains ", " (criticalIssues recs) m m hm (strContains_refl m))

theorem mem_criticalIssues_of_score (recs : List (String × ModuleRecord))
    (m : String) (rec : ModuleRecord) (hmem : (m, rec) ∈ recs)
    (hsc : rec.score ≤ 30) : m ∈ criticalIssues recs := by
  unfold criticalIssues
  refine List.mem_map.mpr ⟨(m, rec), List.mem_filter.mpr ⟨hmem, ?_⟩, rfl⟩
  simp [hsc]

/-! ## Claim C9 -/

theorem extract_metadata_shape (v1 : String) (q : ℚ) (w : PyVal) (hv : v1 ≠ "") :
    extract_numeric_score (.pyDict (.cons "verdict" (.pyStr v1)
      (.cons "final_score" (.pyFloat q) (.cons "metadata_check" w .nil)))) =
    .ok (q, v1) := by
  have h1 : hasKey (.cons "verdict" (.pyStr v1) (.cons "final_score" (.pyFloat q)
      (.cons "metadata_check" w .nil))) "error" = false := by simp [hasKey, lookupVal]
  have h2 : finalScoreKeyVal (.cons "verdict" (.pyStr v1) (.cons "final_score"
      (.pyFloat q) (.cons "metadata_check" w .nil))) = some q := by
    simp [finalScoreKeyVal, numericAt, lookupVal]
  have h3 : verdictChain (.cons "verdict" (.pyStr v1) (.cons "final_score"
      (.pyFloat q) (.cons "metadata_check" w .nil))) = v1 := by
    simp [verdictChain, lookupVal, strOrEmpty, pyTruthy, pyStrOf, hv]
  simp only [extract_numeric_score, h1, Bool.false_eq_true, if_false, h2, h3]

theorem metadata_extract_fake (meta : MetaDict)
    (h : (producerSuspicious (metaField meta "producer") ||
      (strTrim (metaField meta "producer") == "")) = true) :
    extract_numeric_score (run_metadata_check meta) = .ok (0, "FAKE") := by
  have h' : producerSuspicious (metaField meta "producer") = true ∨
      (strTrim (metaField meta "producer") == "") = true := by simpa using h
  have hs : scoredScore meta = 0 := by
    unfold scoredScore
    rcases h' with h1 | h1
    · rw [if_pos h1]
    · by_cases h2 : producerSuspicious (metaField meta "producer") = true
      · rw [if_pos h2]
      · rw [if_neg h2, if_pos h1]
  have hshape := extract_metadata_shape "FAKE" 0 (score_metadata meta) (by decide)
  simp only [run_metadata_check, hs, mkDict, pyFieldsOf]
  norm_num
  convert hshape using 3

theorem metadata_extract_genuine (meta : MetaDict)
    (h : (producerSuspicious (metaField meta "producer") ||
      (strTrim (metaField meta "producer") == "")) = false) :
    extract_numeric_score (run_metadata_check meta) = .ok (100, "GENUINE") := by
  have h' : producerSuspicious (metaField meta "producer") = false ∧
      (strTrim (metaField meta "producer") == "") = false := by
    constructor <;> [skip; skip] <;> revert h <;> cases producerSuspicious (metaField meta "producer") <;>
      cases (strTrim (metaField meta "producer") == "") <;> simp
  have hs : scoredScore meta = 100 := by
    unfold scoredScore
    rw [if_neg (by rw [h'.1]; exact Bool.false_ne_true),
       if_neg (by rw [h'.2]; exact Bool.false_ne_true)]
  have hshape := extract_metadata_shape "GENUINE" 100 (score_metadata meta) (by decide)
  simp only [run_metadata_check, hs, mkDict, pyFieldsOf]
  norm_num
  convert hshape using 3

/-- Claim C9: the metadata forensics check returns score 0 with
verdict `FAKE` exactly when the lower-cased producer string contains
a blacklisted editing tool or strips to the empty string, and score
100 with verdict `GENUINE` otherwise; whenever the producer is
suspicious, the check normalizes to `(0, "FAKE")` and, in any
aggregate run whose other checks normalize, the overall reason lists
`metadata_check` among the critical issues. -/
theorem claim_C9_metadata_blacklist (meta : MetaDict) :
    ((producerSuspicious (metaField meta "producer") ||
      (strTrim (metaField meta "producer") == "")) = true →
      extract_numeric_score (run_metadata_check meta) = .ok (0, "FAKE")) ∧
    ((producerSuspicious (metaField meta "producer") ||
      (strTrim (metaField meta "producer") == "")) = false →
      extract_numeric_score (run_metadata_check meta) = .ok (100, "GENUINE")) ∧
    (∀ (outcomes : String → ModuleOutcome) (norm : String → ℚ × String) (p : String),
      producerSuspicious (metaField meta "producer") = true →
      outcomes "metadata_check" = .returned (run_metadata_check meta) →
      (∀ m' ∈ CHECK_MODULES,
        extract_numeric_score (run_check_module (outcomes m')) = .ok (norm m')) →
      ∃ r, run_non_qr_checks true p (fun m' => run_check_module (outcomes m')) =
          .ok (.report r) ∧
        "metadata_check" ∈ criticalIssues r.modules ∧
        strContains r.overall_reason "metadata_check" = true) := by
  refine ⟨metadata_extract_fake meta, metadata_extract_genuine meta, ?_⟩
  intro outcomes norm p hsusp hout hall
  have hnm : norm "metadata_check" = (0, "FAKE") := by
    have h1 := hall "metadata_check" (by decide)
    rw [hout] at h1
    simp only [run_check_module] at h1
    rw [metadata_extract_fake meta (by rw [hsusp]; rfl)] at h1
    injection h1 with h2
    exact h2.symm
  have hp := processModules_spec (WEIGHTS CHECK_MODULES)
    (fun m' => run_check_module (outcomes m')) norm CHECK_MODULES hall
  have hrun := run_eq_of_processModules _ p _ _ hp
  have hmem : ("metadata_check", mkRecord (WEIGHTS CHECK_MODULES)
        (fun m' => run_check_module (outcomes m')) norm "metadata_check") ∈
      CHECK_MODULES.map (fun m => (m, mkRecord (WEIGHTS CHECK_MODULES)
        (fun m' => run_check_module (outcomes m')) norm m)) :=
    List.mem_map_of_mem _ (show "metadata_check" ∈ CHECK_MODULES by decide)
  have hcrit : "metadata_check" ∈ criticalIssues
      (CHECK_MODULES.map (fun m => (m, mkRecord (WEIGHTS CHECK_MODULES)
        (fun m' => run_check_module (outcomes m')) norm m))) := by
    refine mem_criticalIssues_of_score _ _ _ hmem ?_
    show clamp100 (norm "metadata_check").1 ≤ 30
    rw [hnm]
    norm_num [clamp100]
  exact ⟨_, hrun, hcrit, overallReason_contains_critical _ _ hcrit⟩

/-- Witness for C9: producer `Canva`, every other check returning
`{"score": 100}`; the metadata check normalizes to `(0, "FAKE")` and
the overall reason of the aggregate names `metadata_check`. -/
theorem claim_C9_witness :
    extract_numeric_score (run_metadata_check
      [("producer", some "Canva"), ("creator", some "x")]) = .ok (0, "FAKE") ∧
    (overallReasonOfRun (run_non_qr_checks true "certificate.pdf"
      (fun m' => run_check_module
        (if m' = "metadata_check"
         then ModuleOutcome.returned (run_metadata_check
           [("producer", some "Canva"), ("creator", some "x")])
         else ModuleOutcome.returned (mkDict [("score", PyVal.pyInt 100)]))))).map
      (fun s => strContains s "metadata_check") = some true := by
  have hmain := claim_C9_metadata_blacklist
    [("producer", some "Canva"), ("creator", some "x")]
  constructor
  · exact hmain.1 (by with_unfolding_all decide)
  · obtain ⟨r, hr, hcrit, hcont⟩ := hmain.2.2
      (fun m' => if m' = "metadata_check"
        then ModuleOutcome.returned (run_metadata_check
          [("producer", some "Canva"), ("creator", some "x")])
        else ModuleOutcome.returned (mkDict [("score", PyVal.pyInt 100)]))
      (fun m' => if m' = "metadata_check" then ((0 : ℚ), "FAKE") else ((100 : ℚ), ""))
      "certificate.pdf"
      (by with_unfolding_all decide)
      (by simp)
      (by with_unfolding_all decide)
    simp [overallReasonOfRun, runReport, hr, hcont]

/-! ## Claims C1 and C2 -/

/-- Claim C1: on the URL-detected path (a QR result dict without an
`error` key and a forensic result dict, both scores numeric), the
unified status is `verified` exactly when the external comparator
score exceeds 0.7 and the forensic aggregate exceeds 70; otherwise
the status is `rejected` and the rejection reason is the branch
naming exactly the threshold(s) that failed. -/
theorem claim_C1_threshold_status (qes nes : PyFields) (qs ns : ℚ)
    (hqe : hasKey qes "error" = false)
    (hq : pyAsNumber ((lookupVal qes "score").getD (.pyInt 0)) = .ok qs)
    (hn : pyAsNumber ((lookupVal nes "final_score").getD (.pyInt 0)) = .ok ns) :
    (statusOf (unified_status (some (.pyDict qes)) (some (.pyDict nes))) =
        some "verified" ↔ (qs > 7/10 ∧ ns > 70)) ∧
    (statusOf (unified_status (some (.pyDict qes)) (some (.pyDict nes))) =
        some "rejected" ↔ ¬(qs > 7/10 ∧ ns > 70)) ∧
    (qs ≤ 7/10 ∧ ns ≤ 70 →
      rejectionOf (unified_status (some (.pyDict qes)) (some (.pyDict nes))) =
        some (some (.bothFailed qs ns))) ∧
    (qs ≤ 7/10 ∧ ns > 70 →
      rejectionOf (unified_status (some (.pyDict qes)) (some (.pyDict nes))) =
        some (some (.qrFailed qs (pyGetStr qes "reason" "No details available.")))) ∧
    (qs > 7/10 ∧ ns ≤ 70 →
      rejectionOf (unified_status (some (.pyDict qes)) (some (.pyDict nes))) =
        some (some (.nonQrFailed ns (pyGetStr nes "overall_reason" "No details available.")))) := by
  have hu : unified_status (some (.pyDict qes)) (some (.pyDict nes)) =
      decideUnified (some (.pyDict qes)) (some (.pyDict nes)) qs ns := by
    simp only [unified_status, qrScoreVal, nonQrScoreVal, hqe, Bool.false_eq_true,
      if_false, hq, hn]
  rcases le_or_lt qs (7/10) with hA | hA <;> rcases le_or_lt ns 70 with hB | hB
  · have h1 : ¬(qs > 7/10 ∧ ns > 70) := fun hc => absurd hc.1 (not_lt.mpr hA)
    have hres : decideUnified (some (.pyDict qes)) (some (.pyDict nes)) qs ns =
        .ok ⟨"rejected", some (.bothFailed qs ns)⟩ := by
      simp [decideUnified, h1, hA, hB]
    rw [hu, hres]
    refine ⟨iff_of_false (by simp [statusOf]) h1, iff_of_true rfl h1,
      fun _ => rfl, ?_, ?_⟩
    · rintro ⟨-, hx⟩
      linarith
    · rintro ⟨hx, -⟩
      linarith
  · have h1 : ¬(qs > 7/10 ∧ ns > 70) := fun hc => absurd hc.1 (not_lt.mpr hA)
    have hnb : ¬(qs ≤ 7/10 ∧ ns ≤ 70) := fun hc => absurd hc.2 (not_le.mpr hB)
    have hres : decideUnified (some (.pyDict qes)) (some (.pyDict nes)) qs ns =
        .ok ⟨"rejected", some (.qrFailed qs (pyGetStr qes "reason" "No details available."))⟩ := by
      simp [decideUnified, h1, hA, not_lt.mpr hA, not_le.mpr hB]
    rw [hu, hres]
    refine ⟨iff_of_false (by simp [statusOf]) h1, iff_of_true rfl h1, ?_,
      fun _ => rfl, ?_⟩
    · rintro ⟨-, hx⟩
      linarith
    · rintro ⟨hx, -⟩
      linarith
  · have h1 : ¬(qs > 7/10 ∧ ns > 70) := fun hc => absurd hc.2 (not_lt.mpr hB)
    have hnb : ¬(qs ≤ 7/10 ∧ ns ≤ 70) := fun hc => absurd hc.1 (not_le.mpr hA)
    have hres : decideUnified (some (.pyDict qes)) (some (.pyDict nes)) qs ns =
        .ok ⟨"rejected",
          some (.nonQrFailed ns (pyGetStr nes "overall_reason" "No details available."))⟩ := by
      simp [decideUnified, h1, hnb, not_le.mpr hA, hB]
    rw [hu, hres]
    refine ⟨iff_of_false (by simp [statusOf]) h1, iff_of_true rfl h1, ?_, ?_,
      fun _ => rfl⟩
    · rintro ⟨hx, -⟩
      linarith
    · rintro ⟨-, hx⟩
      linarith
  · have h1 : qs > 7/10 ∧ ns > 70 := ⟨hA, hB⟩
    have hres : decideUnified (some (.pyDict qes)) (some (.pyDict nes)) qs ns =
        .ok ⟨"verified", none⟩ := by
      simp [decideUnified, h1]
    rw [hu, hres]
    refine ⟨iff_of_true rfl h1, iff_of_false (by simp [statusOf]) (not_not_intro h1),
      ?_, ?_, ?_⟩
    · rintro ⟨hx, -⟩
      linarith
    · rintro ⟨hx, -⟩
      linarith
    · rintro ⟨-, hx⟩
      linarith

/-- Witness for C1: comparator score 0.9 with forensic score 80 is
verified. -/
theorem claim_C1_witness :
    statusOf (unified_status
      (some (mkDict [("score", PyVal.pyFloat (9/10)), ("reason", PyVal.pyStr "ok")]))
      (some (mkDict [("final_score", PyVal.pyInt 80)]))) = some "verified" := by
  have h := (claim_C1_threshold_status
    (pyFieldsOf [("score", PyVal.pyFloat (9/10)), ("reason", PyVal.pyStr "ok")])
    (pyFieldsOf [("final_score", PyVal.pyInt 80)]) (9/10) 80
    (by with_unfolding_all decide) (by with_unfolding_all decide)
    (by with_unfolding_all decide)).1
  exact h.mpr (by norm_num)

/-- Claim C2 evaluated at its failing inputs: on the no-URL path the
variable `qr_result` is Python `None`, so
(a) a document whose forensic checks all normalize to 100 yields the
forensic report `final_score = 100`, `final_verdict = ORIGINAL`, yet
feeding that report into the unified-output step raises
`AttributeError` (line 487 evaluates `qr_result.get` on `None`), and
(b) with a forensic score of 60 the unified status is unconditionally
`rejected` with the both-thresholds reason (the QR score defaults to
0), instead of adopting the forensic verdict. -/
theorem claim_C2_no_url_bug :
    finalScoreOfRun (run_non_qr_checks true "certificate.pdf"
      (fun _ => mkDict [("score", PyVal.pyInt 100)])) = some 100 ∧
    finalVerdictOfRun (run_non_qr_checks true "certificate.pdf"
      (fun _ => mkDict [("score", PyVal.pyInt 100)])) = some "ORIGINAL" ∧
    ((runReport (run_non_qr_checks true "certificate.pdf"
      (fun _ => mkDict [("score", PyVal.pyInt 100)]))).map
        (fun r => errOfUnified (unified_status none (some (report_to_py r))))) =
      some (some "AttributeError") ∧
    errOfUnified (unified_status none
      (some (mkDict [("final_score", PyVal.pyFloat 100)]))) = some "AttributeError" ∧
    statusOf (unified_status none
      (some (mkDict [("final_score", PyVal.pyFloat 60)]))) = some "rejected" ∧
    rejectionOf (unified_status none
      (some (mkDict [("final_score", PyVal.pyFloat 60)]))) =
      some (some (.bothFailed 0 60)) := by
  refine ⟨?_, ?_, ?_, ?_, ?_, ?_⟩ <;> with_unfolding_all decide

end CertVerify
